import Mathlib

/-!
Shallow embedding of the aquatic-monitoring sensor firmware: the ammonia
module (ion-selective electrode measurement, NH3/NH4 equilibrium,
three-point log-linear calibration and its EEPROM store), the
nitrite/nitrate module (concentration pipeline, validation and quality
scoring) and the sample-preparation state machine of the TOC/BOD module.

Floating-point arithmetic is modelled by exact real arithmetic, machine
strings by `String`, the C `unsigned long` millisecond clocks by `ℕ`, and
the EEPROM cells actually addressed by the calibration store by an
explicit record with one field per cell.  Hardware reads (ADC voltages,
temperature probe, pH probe, buttons) enter the model as function
arguments; network, logging and power-management side effects are not
part of the embedded state.
-/

namespace Ammonia

/- Sensor specification constants: the C preprocessor defines of the
ammonia module (src/unnamed/part_004). -/

noncomputable def AMMONIA_MIN_RANGE : ℝ := 0.01

noncomputable def AMMONIA_MAX_RANGE : ℝ := 100.0

noncomputable def MIN_ACCEPTABLE_SLOPE : ℝ := 50.0

noncomputable def MAX_ACCEPTABLE_SLOPE : ℝ := 65.0

noncomputable def PKA_25C : ℝ := 9.25

noncomputable def TEMP_COEFF : ℝ := 0.0324

noncomputable def REFERENCE_TEMP : ℝ := 25.0

noncomputable def TOXIC_WARNING_THRESHOLD : ℝ := 0.1

noncomputable def TOXIC_CRITICAL_THRESHOLD : ℝ := 0.5

noncomputable def TOXIC_ACUTE_THRESHOLD : ℝ := 2.0

abbrev MAX_READINGS_BUFFER : ℕ := 10

/-- The three fixed calibration standards CALIB_STANDARD_1/2/3 (mg/L). -/
noncomputable def calibrationStandards : ℝ × ℝ × ℝ := (1, 10, 100)

/-- struct AmmoniaData of the ammonia module. -/
structure AmmoniaData where
  totalAmmonia : ℝ
  freeAmmonia : ℝ
  ammonium : ℝ
  pH : ℝ
  temperature : ℝ
  rawVoltage : ℝ
  slope : ℝ
  timestamp : ℕ
  toxicityLevel : String
  dataValid : Bool

/-- struct CalibrationData of the ammonia module.  The two arrays of
length CALIBRATION_POINTS = 3 are modelled as triples. -/
structure CalibrationData where
  isValid : Bool
  slope : ℝ
  intercept : ℝ
  standards : ℝ × ℝ × ℝ
  voltages : ℝ × ℝ × ℝ
  calibrationDate : ℕ
  correlationCoeff : ℝ

/-- The EEPROM cells addressed by saveCalibrationData and
loadCalibrationData (addresses CALIB_VALID_ADDR, CALIB_SLOPE_ADDR,
CALIB_INTERCEPT_ADDR, CALIB_DATE_ADDR).  No other cell of the 512-byte
EEPROM is ever read or written by the calibration store. -/
structure EepromState where
  validCell : Bool
  slopeCell : ℝ
  interceptCell : ℝ
  dateCell : ℕ

/-- The mutable globals of the ammonia module that the measurement path
touches: currentReading, calibration, ammoniaBuffer and bufferIndex. -/
structure SensorState where
  currentReading : AmmoniaData
  calibration : CalibrationData
  ammoniaBuffer : Fin MAX_READINGS_BUFFER → ℝ
  bufferIndex : Fin MAX_READINGS_BUFFER

/-- calculateAmmoniaConcentration: early-returns 0.0 without a valid
calibration, otherwise inverts the Nernst relation with the
temperature-compensated slope. -/
noncomputable def calculateAmmoniaConcentration (calibration : CalibrationData)
    (voltage temperature : ℝ) : ℝ :=
  if calibration.isValid then
    let tempCompensatedSlope :=
      calibration.slope * (temperature + 273.15) / (REFERENCE_TEMP + 273.15)
    let logConcentration := (voltage - calibration.intercept) / tempCompensatedSlope
    (10 : ℝ) ^ logConcentration
  else 0.0

/-- calculateFreeAmmoniaFraction: Henderson-Hasselbalch fraction of free
NH3 with the temperature-dependent pKa. -/
noncomputable def calculateFreeAmmoniaFraction (pH temperature : ℝ) : ℝ :=
  let pKa := PKA_25C + TEMP_COEFF * (temperature - REFERENCE_TEMP)
  let powerTerm := pKa - pH
  1.0 / (1.0 + (10 : ℝ) ^ powerTerm)

/-- assessToxicity: ordered band membership over the three toxic
thresholds. -/
noncomputable def assessToxicity (freeAmmonia : ℝ) : String :=
  if TOXIC_ACUTE_THRESHOLD ≤ freeAmmonia then "ACUTE"
  else if TOXIC_CRITICAL_THRESHOLD ≤ freeAmmonia then "CRITICAL"
  else if TOXIC_WARNING_THRESHOLD ≤ freeAmmonia then "WARNING"
  else "SAFE"

/-- The in-range test of takeAmmoniaMeasurement:
totalAmmonia >= AMMONIA_MIN_RANGE && totalAmmonia <= AMMONIA_MAX_RANGE. -/
noncomputable def ammoniaInRange (totalAmmonia : ℝ) : Prop :=
  AMMONIA_MIN_RANGE ≤ totalAmmonia ∧ totalAmmonia ≤ AMMONIA_MAX_RANGE

noncomputable instance (totalAmmonia : ℝ) : Decidable (ammoniaInRange totalAmmonia) :=
  inferInstanceAs (Decidable (AMMONIA_MIN_RANGE ≤ totalAmmonia ∧ totalAmmonia ≤ AMMONIA_MAX_RANGE))

/-- takeAmmoniaMeasurement: one sampling cycle.  The hardware reads
(temperature, pH, ISE voltage) and the millis() clock are arguments; the
MQTT/RTC side effects are outside the embedded state.  In range, the new
instantaneous total is written into the rolling buffer, the published
totalAmmonia is the buffer average, and the equilibrium split uses the
instantaneous total; out of range only dataValid is cleared. -/
noncomputable def takeAmmoniaMeasurement (st : SensorState)
    (temperature pH iseVoltage : ℝ) (now : ℕ) : SensorState :=
  let totalAmmonia := calculateAmmoniaConcentration st.calibration iseVoltage temperature
  let freeAmmoniaFraction := calculateFreeAmmoniaFraction pH temperature
  let freeAmmonia := totalAmmonia * freeAmmoniaFraction
  let ammonium := totalAmmonia * (1.0 - freeAmmoniaFraction)
  if ammoniaInRange totalAmmonia then
    let buf := Function.update st.ammoniaBuffer st.bufferIndex totalAmmonia
    let avgAmmonia := (Finset.univ.sum buf) / (MAX_READINGS_BUFFER : ℝ)
    { st with
      ammoniaBuffer := buf
      bufferIndex := st.bufferIndex + 1
      currentReading :=
        { totalAmmonia := avgAmmonia
          freeAmmonia := freeAmmonia
          ammonium := ammonium
          pH := pH
          temperature := temperature
          rawVoltage := iseVoltage
          slope := st.calibration.slope
          timestamp := now
          toxicityLevel := assessToxicity freeAmmonia
          dataValid := true } }
  else
    { st with currentReading := { st.currentReading with dataValid := false } }

/-- calculateCalibrationCurve: ordinary least squares of voltage against
log10(standard) over the three calibration points, writing slope,
intercept and Pearson correlation into the calibration struct. -/
noncomputable def calculateCalibrationCurve (calibration : CalibrationData)
    (standards voltages : ℝ × ℝ × ℝ) : CalibrationData :=
  let x1 := Real.logb 10 standards.1
  let x2 := Real.logb 10 standards.2.1
  let x3 := Real.logb 10 standards.2.2
  let y1 := voltages.1
  let y2 := voltages.2.1
  let y3 := voltages.2.2
  let sumX := x1 + x2 + x3
  let sumY := y1 + y2 + y3
  let sumXY := x1 * y1 + x2 * y2 + x3 * y3
  let sumX2 := x1 * x1 + x2 * x2 + x3 * x3
  let slope := (3 * sumXY - sumX * sumY) / (3 * sumX2 - sumX * sumX)
  let intercept := (sumY - slope * sumX) / 3
  let sumY2 := y1 * y1 + y2 * y2 + y3 * y3
  let numerator := 3 * sumXY - sumX * sumY
  let denominator := Real.sqrt ((3 * sumX2 - sumX * sumX) * (3 * sumY2 - sumY * sumY))
  let corr := if denominator ≠ 0 then numerator / denominator else 0.0
  { calibration with slope := slope, intercept := intercept, correlationCoeff := corr }

/-- saveCalibrationData: EEPROM.put of exactly four cells (isValid,
slope, intercept, calibrationDate) followed by commit.  The correlation
coefficient and the point arrays are not written. -/
noncomputable def saveCalibrationData (calibration : CalibrationData)
    (_eeprom : EepromState) : EepromState :=
  { validCell := calibration.isValid
    slopeCell := calibration.slope
    interceptCell := calibration.intercept
    dateCell := calibration.calibrationDate }

/-- loadCalibrationData: EEPROM.get of the same four cells into the
calibration struct; every other field keeps its prior in-memory value. -/
noncomputable def loadCalibrationData (eeprom : EepromState)
    (calibration : CalibrationData) : CalibrationData :=
  { calibration with
    isValid := eeprom.validCell
    slope := eeprom.slopeCell
    intercept := eeprom.interceptCell
    calibrationDate := eeprom.dateCell }

/-- performCalibration: fits the curve from the three operator-supplied
voltages (modelled as arguments), then accepts iff the absolute fitted
slope is within [MIN_ACCEPTABLE_SLOPE, MAX_ACCEPTABLE_SLOPE]; on success
records the points and date and saves to EEPROM, on failure only clears
isValid (the freshly fitted slope, intercept and correlation remain in
the in-memory struct and nothing is saved). -/
noncomputable def performCalibration (calibration : CalibrationData)
    (eeprom : EepromState) (voltages : ℝ × ℝ × ℝ) (now : ℕ) :
    CalibrationData × EepromState :=
  let standards := calibrationStandards
  let cal1 := calculateCalibrationCurve calibration standards voltages
  if MIN_ACCEPTABLE_SLOPE ≤ |cal1.slope| ∧ |cal1.slope| ≤ MAX_ACCEPTABLE_SLOPE then
    let cal2 : CalibrationData :=
      { cal1 with
        isValid := true
        calibrationDate := now
        standards := standards
        voltages := voltages }
    (cal2, saveCalibrationData cal2 eeprom)
  else
    ({ cal1 with isValid := false }, eeprom)

end Ammonia

namespace Nitrite

/-- struct SensorConfig of the nitrite/nitrate module (the fields the
measurement pipeline reads; dummy-mode test-data generation is outside
the embedding). -/
structure SensorConfig where
  nitrite_slope : ℝ
  nitrite_intercept : ℝ
  nitrate_slope : ℝ
  nitrate_intercept : ℝ
  temp_coefficient : ℝ
  ph_compensation : ℝ
  conductivity_compensation : ℝ

/-- struct MeasurementData of the nitrite/nitrate module. -/
structure MeasurementData where
  nitrite_voltage : ℝ
  nitrate_voltage : ℝ
  nitrite_concentration : ℝ
  nitrate_concentration : ℝ
  temperature : ℝ
  ph_value : ℝ
  conductivity : ℝ
  timestamp : ℕ
  valid : Bool
  quality_score : ℤ

/-- struct CalibrationData of the nitrite/nitrate module. -/
structure CalibrationData where
  nitrite_standards : ℝ × ℝ × ℝ
  nitrate_standards : ℝ × ℝ × ℝ
  nitrite_voltages : ℝ × ℝ × ℝ
  nitrate_voltages : ℝ × ℝ × ℝ
  calibrated : Bool
  last_calibration : ℕ

/-- calculateConcentrations: inverse log-linear model using the stored
mid-standard voltage when calibrated, else the default intercept/slope
from the config. -/
noncomputable def calculateConcentrations (config : SensorConfig)
    (calibration : CalibrationData) (data : MeasurementData) : MeasurementData :=
  if calibration.calibrated then
    { data with
      nitrite_concentration :=
        (10 : ℝ) ^ ((data.nitrite_voltage - calibration.nitrite_voltages.2.1) / config.nitrite_slope)
      nitrate_concentration :=
        (10 : ℝ) ^ ((data.nitrate_voltage - calibration.nitrate_voltages.2.1) / config.nitrate_slope) }
  else
    { data with
      nitrite_concentration :=
        (10 : ℝ) ^ ((data.nitrite_voltage - config.nitrite_intercept) / config.nitrite_slope)
      nitrate_concentration :=
        (10 : ℝ) ^ ((data.nitrate_voltage - config.nitrate_intercept) / config.nitrate_slope) }

/-- applyTemperatureCompensation: multiplicative factor on both
concentrations. -/
noncomputable def applyTemperatureCompensation (config : SensorConfig)
    (data : MeasurementData) : MeasurementData :=
  let temp_factor := 1.0 + config.temp_coefficient * (data.temperature - 25.0)
  { data with
    nitrite_concentration := data.nitrite_concentration * temp_factor
    nitrate_concentration := data.nitrate_concentration * temp_factor }

/-- applyCrossSensorCompensation: pH factor on nitrite, conductivity
factor on both. -/
noncomputable def applyCrossSensorCompensation (config : SensorConfig)
    (data : MeasurementData) : MeasurementData :=
  let ph_factor := 1.0 + config.ph_compensation * (data.ph_value - 7.0)
  let cond_factor :=
    1.0 + config.conductivity_compensation * (data.conductivity - 500.0) / 500.0
  { data with
    nitrite_concentration := data.nitrite_concentration * ph_factor * cond_factor
    nitrate_concentration := data.nitrate_concentration * cond_factor }

/-- The validation expression of performMeasurement (lines 318-320 of the
nitrite/nitrate module): both concentrations within their physical
ranges and temperature strictly between -10 and 50. -/
noncomputable def validateMeasurement (data : MeasurementData) : Bool :=
  if 0 ≤ data.nitrite_concentration ∧ data.nitrite_concentration ≤ 100 ∧
      0 ≤ data.nitrate_concentration ∧ data.nitrate_concentration ≤ 1000 ∧
      -10 < data.temperature ∧ data.temperature < 50 then true else false

/-- calculateQualityScore: starts at 100 and is penalised for extreme
concentrations, out-of-nominal temperature, missing calibration and
calibration older than one week; floored at 0. -/
noncomputable def calculateQualityScore (calibration : CalibrationData)
    (data : MeasurementData) (now : ℕ) : ℤ :=
  let s0 : ℤ := 100
  let s1 := if (5.0 : ℝ) < data.nitrite_concentration then s0 - 20 else s0
  let s2 := if (200.0 : ℝ) < data.nitrate_concentration then s1 - 20 else s1
  let s3 := if data.temperature < 10 ∨ 30 < data.temperature then s2 - 10 else s2
  let s4 := if calibration.calibrated then s3 else s3 - 30
  let s5 := if 604800000 < now - calibration.last_calibration then s4 - 20 else s4
  max 0 s5

/-- performMeasurement (real-measurement path): voltages and temperature
come from the hardware (arguments here), pH and conductivity are the
hard-coded placeholders 7.0 and 500.0, then the concentration pipeline,
the validation expression, and on success the quality score with a reset
error counter, on failure an incremented error counter (the C struct
leaves quality_score uninitialised on the invalid path; the model keeps
the initial 0). -/
noncomputable def performMeasurement (config : SensorConfig)
    (calibration : CalibrationData) (consecutiveErrors : ℕ)
    (nitrite_voltage nitrate_voltage temperature : ℝ) (now : ℕ) :
    MeasurementData × ℕ :=
  let data0 : MeasurementData :=
    { nitrite_voltage := nitrite_voltage
      nitrate_voltage := nitrate_voltage
      nitrite_concentration := 0
      nitrate_concentration := 0
      temperature := temperature
      ph_value := 7.0
      conductivity := 500.0
      timestamp := now
      valid := false
      quality_score := 0 }
  let data1 := calculateConcentrations config calibration data0
  let data2 := applyTemperatureCompensation config data1
  let data3 := applyCrossSensorCompensation config data2
  let data4 := { data3 with valid := validateMeasurement data3 }
  if data4.valid then
    ({ data4 with quality_score := calculateQualityScore calibration data4 now }, 0)
  else
    (data4, consecutiveErrors + 1)

end Nitrite

namespace TocBod

/-- enum SampleState of the sample-preparation state machine
(src/Dissolved_Oxygen_Sensor/dissolved_oxygen_sensor.ino). -/
inductive SampleState where
  | IDLE
  | SAMPLING
  | HEATING
  | MEASURING
  | CLEANING
deriving DecidableEq, Repr

/-- The initialiser SampleState currentState = IDLE. -/
def initialSampleState : SampleState := SampleState.IDLE

/-- startMeasurementCycle: a new cycle begins only from IDLE; in any
other state the call leaves the state unchanged. -/
def startMeasurementCycle (s : SampleState) : SampleState :=
  if s = SampleState.IDLE then SampleState.SAMPLING else s

/-- handleSampleStateMachine: one invocation of the state machine given
the current state and the milliseconds spent in it (stateTime =
millis() - stateStartTime); each intermediate state advances to the next
after its fixed dwell time.  The actuator writes and the embedded
takeMeasurement call are side effects outside the state. -/
def handleSampleStateMachine (s : SampleState) (stateTime : ℕ) : SampleState :=
  match s with
  | SampleState.IDLE => SampleState.IDLE
  | SampleState.SAMPLING =>
      if 30000 < stateTime then SampleState.HEATING else SampleState.SAMPLING
  | SampleState.HEATING =>
      if 60000 < stateTime then SampleState.MEASURING else SampleState.HEATING
  | SampleState.MEASURING =>
      if 5000 < stateTime then SampleState.CLEANING else SampleState.MEASURING
  | SampleState.CLEANING =>
      if 15000 < stateTime then SampleState.IDLE else SampleState.CLEANING

/-- Modelled from the spec: the cycle order
SAMPLING -> HEATING -> MEASURING -> CLEANING -> IDLE, with IDLE terminal. -/
def specNextState : SampleState → SampleState
  | SampleState.IDLE => SampleState.IDLE
  | SampleState.SAMPLING => SampleState.HEATING
  | SampleState.HEATING => SampleState.MEASURING
  | SampleState.MEASURING => SampleState.CLEANING
  | SampleState.CLEANING => SampleState.IDLE

/-- Modelled from the spec: the fixed dwell time (ms) of each
intermediate state (IDLE waits for the scheduler, recorded as 0). -/
def specDwellTime : SampleState → ℕ
  | SampleState.IDLE => 0
  | SampleState.SAMPLING => 30000
  | SampleState.HEATING => 60000
  | SampleState.MEASURING => 5000
  | SampleState.CLEANING => 15000

end TocBod

/-! ## Helper lemmas -/

lemma log10_one : Real.logb 10 1 = 0 := Real.logb_one

lemma log10_ten : Real.logb 10 10 = 1 := Real.logb_self_eq_one (by norm_num)

lemma log10_hundred : Real.logb 10 100 = 2 := by
  have h : (100 : ℝ) = 10 ^ (2 : ℕ) := by norm_num
  rw [h, Real.logb_pow, Real.logb_self_eq_one (by norm_num)]
  norm_num

lemma ten_rpow_quarter_bounds :
    1.775 < (10 : ℝ) ^ ((0.25 : ℝ)) ∧ (10 : ℝ) ^ ((0.25 : ℝ)) < 1.782 := by
  have h0 : (0 : ℝ) < (10 : ℝ) ^ ((0.25 : ℝ)) := Real.rpow_pos_of_pos (by norm_num) _
  have h4 : ((10 : ℝ) ^ ((0.25 : ℝ))) ^ (4 : ℕ) = 10 := by
    rw [← Real.rpow_natCast ((10 : ℝ) ^ ((0.25 : ℝ))) 4,
      ← Real.rpow_mul (by norm_num : (0 : ℝ) ≤ 10)]
    norm_num
  constructor
  · by_contra h
    push_neg at h
    have h2 : ((10 : ℝ) ^ ((0.25 : ℝ))) ^ (4 : ℕ) ≤ (1.775 : ℝ) ^ (4 : ℕ) :=
      pow_le_pow_left₀ (le_of_lt h0) h 4
    rw [h4] at h2
    norm_num at h2
  · by_contra h
    push_neg at h
    have h2 : (1.782 : ℝ) ^ (4 : ℕ) ≤ ((10 : ℝ) ^ ((0.25 : ℝ))) ^ (4 : ℕ) :=
      pow_le_pow_left₀ (by norm_num) h 4
    rw [h4] at h2
    norm_num at h2

namespace Ammonia

/-! ## Claim theorems on the ammonia module -/

/-- C4: for every raw signal v, temperature T and valid stored
calibration, the LogLinear concentration computation returns
10 ^ ((v - intercept) / (slope * ((T + 273.15) / (25 + 273.15)))), the
Nernst inversion with the slope scaled by the ratio of absolute
temperatures. -/
theorem C4_loglinear_concentration (cal : CalibrationData) (v T : ℝ)
    (h : cal.isValid = true) :
    calculateAmmoniaConcentration cal v T =
      (10 : ℝ) ^ ((v - cal.intercept) / (cal.slope * ((T + 273.15) / (25 + 273.15)))) := by
  simp only [calculateAmmoniaConcentration, h, if_true, REFERENCE_TEMP]
  rw [mul_div_assoc]
  norm_num

/-- Witness for C4 at a concrete valid calibration (slope 59,
intercept 200), raw signal 100 and temperature 25. -/
theorem C4_witness :
    calculateAmmoniaConcentration
        { isValid := true, slope := 59, intercept := 200, standards := (1, 10, 100),
          voltages := (0, 0, 0), calibrationDate := 0, correlationCoeff := 1 } 100 25 =
      (10 : ℝ) ^ (((100 : ℝ) - 200) / ((59 : ℝ) * (((25 : ℝ) + 273.15) / (25 + 273.15)))) :=
  C4_loglinear_concentration _ 100 25 rfl

end Ammonia

namespace Ammonia

/-- The Scenario B fraction 1 / (1 + 10^(-0.25)) lies strictly between
0.639 and 0.641. -/
lemma scenarioB_fraction_bounds :
    0.639 < calculateFreeAmmoniaFraction 9.5 25 ∧
      calculateFreeAmmoniaFraction 9.5 25 < 0.641 := by
  have hfrac : calculateFreeAmmoniaFraction 9.5 25 =
      (1 + ((10 : ℝ) ^ ((0.25 : ℝ)))⁻¹)⁻¹ := by
    simp only [calculateFreeAmmoniaFraction, PKA_25C, TEMP_COEFF, REFERENCE_TEMP]
    rw [show (9.25 : ℝ) + 0.0324 * ((25 : ℝ) - 25.0) - 9.5 = -(0.25 : ℝ) by norm_num,
      Real.rpow_neg (by norm_num : (0 : ℝ) ≤ 10)]
    norm_num
  have ht := ten_rpow_quarter_bounds
  have htpos : (0 : ℝ) < (10 : ℝ) ^ ((0.25 : ℝ)) := Real.rpow_pos_of_pos (by norm_num) _
  set t := (10 : ℝ) ^ ((0.25 : ℝ)) with htdef
  have hne : t ≠ 0 := ne_of_gt htpos
  have hform : (1 + t⁻¹)⁻¹ = t / (t + 1) := by
    rw [show (1 : ℝ) + t⁻¹ = (t + 1) / t by field_simp]
    rw [inv_div]
  rw [hfrac, hform]
  have hden : (0 : ℝ) < t + 1 := by linarith
  constructor
  · rw [lt_div_iff₀ hden]
    linarith [ht.1]
  · rw [div_lt_iff₀ hden]
    linarith [ht.2]

/-- C5: the free-ammonia fraction is 1 / (1 + 10^(pKa - pH)) with
pKa = 9.25 + 0.0324*(T - 25); at pH 9.5, T = 25 and total ammonia
1.0 mg/L the free ammonia is within 0.001 of 0.640 mg/L and the
toxicity assessment is CRITICAL. -/
theorem C5_free_ammonia_scenarioB :
    (∀ pH T : ℝ, calculateFreeAmmoniaFraction pH T =
        1 / (1 + (10 : ℝ) ^ ((9.25 + 0.0324 * (T - 25)) - pH))) ∧
    |1.0 * calculateFreeAmmoniaFraction 9.5 25 - 0.640| < 0.001 ∧
    assessToxicity (1.0 * calculateFreeAmmoniaFraction 9.5 25) = "CRITICAL" := by
  have hb := scenarioB_fraction_bounds
  refine ⟨?_, ?_, ?_⟩
  · intro pH T
    simp only [calculateFreeAmmoniaFraction, PKA_25C, TEMP_COEFF, REFERENCE_TEMP]
    norm_num
  · rw [abs_lt]
    constructor <;> [linarith [hb.1]; linarith [hb.2]]
  · simp only [assessToxicity, TOXIC_ACUTE_THRESHOLD, TOXIC_CRITICAL_THRESHOLD]
    rw [if_neg (by linarith [hb.2]), if_pos (by linarith [hb.1])]

end Ammonia
namespace TocBod

/-- C9: IDLE is the initial scheduler state; each invocation of the
state machine either stays in the current state (dwell time not yet
elapsed) or advances to the unique next state of the cycle
SAMPLING -> HEATING -> MEASURING -> CLEANING -> IDLE exactly when the
fixed dwell time of the state has elapsed (IDLE only leaves via
startMeasurementCycle); and startMeasurementCycle starts a new cycle
from IDLE only, leaving every non-IDLE state unchanged, so a started
cycle runs to completion before the next may begin. -/
theorem C9_sample_state_machine :
    initialSampleState = SampleState.IDLE ∧
    (∀ (s : SampleState) (t : ℕ),
      handleSampleStateMachine s t =
        if specDwellTime s < t then specNextState s else s) ∧
    startMeasurementCycle SampleState.IDLE = SampleState.SAMPLING ∧
    startMeasurementCycle SampleState.SAMPLING = SampleState.SAMPLING ∧
    startMeasurementCycle SampleState.HEATING = SampleState.HEATING ∧
    startMeasurementCycle SampleState.MEASURING = SampleState.MEASURING ∧
    startMeasurementCycle SampleState.CLEANING = SampleState.CLEANING := by
  refine ⟨rfl, ?_, by decide, by decide, by decide, by decide, by decide⟩
  intro s t
  cases s <;> simp [handleSampleStateMachine, specDwellTime, specNextState]

end TocBod

namespace Ammonia

/-- C3 counterexample: saving a curve whose correlation coefficient is
0.999 and loading it back over a zeroed in-memory struct yields
correlation 0, strictly below the saved one, so the loaded curve does
not equal the saved curve in all fields. -/
theorem C3_counterexample :
    (loadCalibrationData
        (saveCalibrationData
          { isValid := true, slope := 59, intercept := 200, standards := (1, 10, 100),
            voltages := (200, 141, 82), calibrationDate := 5, correlationCoeff := 0.999 }
          { validCell := false, slopeCell := 0, interceptCell := 0, dateCell := 0 })
        { isValid := false, slope := 0, intercept := 0, standards := (0, 0, 0),
          voltages := (0, 0, 0), calibrationDate := 0, correlationCoeff := 0 }).correlationCoeff <
      ({ isValid := true, slope := 59, intercept := 200, standards := (1, 10, 100),
          voltages := (200, 141, 82), calibrationDate := 5,
          correlationCoeff := 0.999 } : CalibrationData).correlationCoeff := by
  simp only [loadCalibrationData, saveCalibrationData]
  norm_num

/-- C3 amended: a save/load round trip through the EEPROM store returns
a curve that agrees with the saved one exactly on the four persisted
fields (isValid, slope, intercept, calibrationDate), while the
correlation coefficient and the recorded calibration points keep
whatever the in-memory struct held before the load. -/
theorem C3_roundtrip_partial (cal : CalibrationData) (e : EepromState)
    (inMem : CalibrationData) :
    (loadCalibrationData (saveCalibrationData cal e) inMem).isValid = cal.isValid ∧
    (loadCalibrationData (saveCalibrationData cal e) inMem).slope = cal.slope ∧
    (loadCalibrationData (saveCalibrationData cal e) inMem).intercept = cal.intercept ∧
    (loadCalibrationData (saveCalibrationData cal e) inMem).calibrationDate =
      cal.calibrationDate ∧
    (loadCalibrationData (saveCalibrationData cal e) inMem).correlationCoeff =
      inMem.correlationCoeff ∧
    (loadCalibrationData (saveCalibrationData cal e) inMem).standards = inMem.standards ∧
    (loadCalibrationData (saveCalibrationData cal e) inMem).voltages = inMem.voltages :=
  ⟨rfl, rfl, rfl, rfl, rfl, rfl, rfl⟩

end Ammonia
namespace Ammonia

/-- Evaluation of the least-squares fit at the Scenario C data:
standards (1, 10, 100) with raw signals (200, 141, 82) give slope -59,
intercept 200 and correlation exactly -1. -/
lemma scenarioC_curve (cal : CalibrationData) :
    (calculateCalibrationCurve cal calibrationStandards (200, 141, 82)).slope = -59 ∧
    (calculateCalibrationCurve cal calibrationStandards (200, 141, 82)).intercept = 200 ∧
    (calculateCalibrationCurve cal calibrationStandards (200, 141, 82)).correlationCoeff = -1 := by
  simp only [calculateCalibrationCurve, calibrationStandards]
  rw [log10_one, log10_ten, log10_hundred]
  rw [show ((3:ℝ) * (0 * 0 + 1 * 1 + 2 * 2) - (0 + 1 + 2) * (0 + 1 + 2)) *
        (3 * (200 * 200 + 141 * 141 + 82 * 82) - (200 + 141 + 82) * (200 + 141 + 82)) =
      125316 by norm_num]
  rw [show Real.sqrt (125316 : ℝ) = 354 by
    rw [show (125316 : ℝ) = 354 ^ 2 by norm_num, Real.sqrt_sq (by norm_num : (0:ℝ) ≤ 354)]]
  rw [if_pos (by norm_num : (354 : ℝ) ≠ 0)]
  norm_num

/-- C6 counterexample: at the Scenario C input (standards 1, 10, 100,
raw signals 200, 141, 82) the computed Pearson correlation is exactly
-1, not approximately 1: the fitted line descends, so the correlation
is negative and in particular below 0.99. -/
theorem C6_counterexample :
    (calculateCalibrationCurve
        { isValid := false, slope := 0, intercept := 0, standards := (0, 0, 0),
          voltages := (0, 0, 0), calibrationDate := 0, correlationCoeff := 0 }
        calibrationStandards (200, 141, 82)).correlationCoeff = -1 ∧
    (calculateCalibrationCurve
        { isValid := false, slope := 0, intercept := 0, standards := (0, 0, 0),
          voltages := (0, 0, 0), calibrationDate := 0, correlationCoeff := 0 }
        calibrationStandards (200, 141, 82)).correlationCoeff < 0.99 := by
  have h := scenarioC_curve
    { isValid := false, slope := 0, intercept := 0, standards := (0, 0, 0),
      voltages := (0, 0, 0), calibrationDate := 0, correlationCoeff := 0 }
  exact ⟨h.2.2, by rw [h.2.2]; norm_num⟩

/-- C6 amended: for every 3-point calibration whose positive, strictly
increasing standards and raw signals satisfy an exact log-linear
relation v = a*log10(c) + b with a nonzero, the least-squares fit
recovers slope a and intercept b exactly and the Pearson correlation
has absolute value 1 (its sign is the sign of a); at the Scenario C
input the fit gives slope -59, intercept 200, correlation -1, and
performCalibration marks the resulting curve valid. -/
theorem C6_loglinear_fit (cal : CalibrationData) (c1 c2 c3 a b v1 v2 v3 : ℝ)
    (hc1 : 0 < c1) (h12 : c1 < c2) (h23 : c2 < c3) (ha : a ≠ 0)
    (hv1 : v1 = a * Real.logb 10 c1 + b)
    (hv2 : v2 = a * Real.logb 10 c2 + b)
    (hv3 : v3 = a * Real.logb 10 c3 + b) :
    (calculateCalibrationCurve cal (c1, c2, c3) (v1, v2, v3)).slope = a ∧
    (calculateCalibrationCurve cal (c1, c2, c3) (v1, v2, v3)).intercept = b ∧
    |(calculateCalibrationCurve cal (c1, c2, c3) (v1, v2, v3)).correlationCoeff| = 1 ∧
    (performCalibration
        { isValid := false, slope := 0, intercept := 0, standards := (0, 0, 0),
          voltages := (0, 0, 0), calibrationDate := 0, correlationCoeff := 0 }
        { validCell := false, slopeCell := 0, interceptCell := 0, dateCell := 0 }
        (200, 141, 82) 7).1.slope = -59 ∧
    (performCalibration
        { isValid := false, slope := 0, intercept := 0, standards := (0, 0, 0),
          voltages := (0, 0, 0), calibrationDate := 0, correlationCoeff := 0 }
        { validCell := false, slopeCell := 0, interceptCell := 0, dateCell := 0 }
        (200, 141, 82) 7).1.correlationCoeff = -1 ∧
    (performCalibration
        { isValid := false, slope := 0, intercept := 0, standards := (0, 0, 0),
          voltages := (0, 0, 0), calibrationDate := 0, correlationCoeff := 0 }
        { validCell := false, slopeCell := 0, interceptCell := 0, dateCell := 0 }
        (200, 141, 82) 7).1.isValid = true := by
  have hscen := scenarioC_curve
    { isValid := false, slope := 0, intercept := 0, standards := (0, 0, 0),
      voltages := (0, 0, 0), calibrationDate := 0, correlationCoeff := 0 }
  have hperf :
      (performCalibration
        { isValid := false, slope := 0, intercept := 0, standards := (0, 0, 0),
          voltages := (0, 0, 0), calibrationDate := 0, correlationCoeff := 0 }
        { validCell := false, slopeCell := 0, interceptCell := 0, dateCell := 0 }
        (200, 141, 82) 7).1.slope = -59 ∧
      (performCalibration
        { isValid := false, slope := 0, intercept := 0, standards := (0, 0, 0),
          voltages := (0, 0, 0), calibrationDate := 0, correlationCoeff := 0 }
        { validCell := false, slopeCell := 0, interceptCell := 0, dateCell := 0 }
        (200, 141, 82) 7).1.correlationCoeff = -1 ∧
      (performCalibration
        { isValid := false, slope := 0, intercept := 0, standards := (0, 0, 0),
          voltages := (0, 0, 0), calibrationDate := 0, correlationCoeff := 0 }
        { validCell := false, slopeCell := 0, interceptCell := 0, dateCell := 0 }
        (200, 141, 82) 7).1.isValid = true := by
    simp only [performCalibration]
    rw [if_pos]
    · exact ⟨hscen.1, hscen.2.2, rfl⟩
    · constructor
      · rw [hscen.1]
        simp only [MIN_ACCEPTABLE_SLOPE]
        rw [abs_of_neg (by norm_num : (-59 : ℝ) < 0)]
        norm_num
      · rw [hscen.1]
        simp only [MAX_ACCEPTABLE_SLOPE]
        rw [abs_of_neg (by norm_num : (-59 : ℝ) < 0)]
        norm_num
  refine ⟨?_, ?_, ?_, hperf.1, hperf.2.1, hperf.2.2⟩ <;>
    simp only [calculateCalibrationCurve]
  all_goals {
    set x1 := Real.logb 10 c1 with hx1def
    set x2 := Real.logb 10 c2 with hx2def
    set x3 := Real.logb 10 c3 with hx3def
    have hx12 : x1 < x2 := Real.logb_lt_logb (by norm_num) hc1 h12
    have hDpos : 0 < 3 * (x1 * x1 + x2 * x2 + x3 * x3) - (x1 + x2 + x3) * (x1 + x2 + x3) := by
      nlinarith [sq_nonneg (x1 - x3), sq_nonneg (x2 - x3),
        pow_two_pos_of_ne_zero (sub_ne_zero.mpr (ne_of_lt hx12))]
    have hDne : (3 * (x1 * x1 + x2 * x2 + x3 * x3) - (x1 + x2 + x3) * (x1 + x2 + x3)) ≠ 0 :=
      ne_of_gt hDpos
    have hnum : 3 * (x1 * v1 + x2 * v2 + x3 * v3) - (x1 + x2 + x3) * (v1 + v2 + v3) =
        a * (3 * (x1 * x1 + x2 * x2 + x3 * x3) - (x1 + x2 + x3) * (x1 + x2 + x3)) := by
      rw [hv1, hv2, hv3]
      ring
    first
    | -- slope
      rw [hnum]
      exact mul_div_cancel_right₀ a hDne
    | -- intercept
      rw [hnum, mul_div_cancel_right₀ a hDne, hv1, hv2, hv3]
      ring
    | -- correlation
      {
        have hE : 3 * (v1 * v1 + v2 * v2 + v3 * v3) - (v1 + v2 + v3) * (v1 + v2 + v3) =
            (a * a) * (3 * (x1 * x1 + x2 * x2 + x3 * x3) - (x1 + x2 + x3) * (x1 + x2 + x3)) := by
          rw [hv1, hv2, hv3]
          ring
        have habs : |a * (3 * (x1 * x1 + x2 * x2 + x3 * x3) -
            (x1 + x2 + x3) * (x1 + x2 + x3))| ≠ 0 :=
          abs_ne_zero.mpr (mul_ne_zero ha hDne)
        rw [hE]
        rw [show (3 * (x1 * x1 + x2 * x2 + x3 * x3) - (x1 + x2 + x3) * (x1 + x2 + x3)) *
              ((a * a) * (3 * (x1 * x1 + x2 * x2 + x3 * x3) - (x1 + x2 + x3) * (x1 + x2 + x3))) =
            (a * (3 * (x1 * x1 + x2 * x2 + x3 * x3) - (x1 + x2 + x3) * (x1 + x2 + x3))) ^ 2 by
          ring]
        rw [Real.sqrt_sq_eq_abs, if_pos habs, hnum, abs_div, abs_abs]
        exact div_self habs
      }
  }

end Ammonia
namespace Ammonia

/-- Evaluation of the least-squares fit at the all-zero voltage triple:
the fitted slope is 0 (which fails the acceptance test). -/
lemma zeroVolt_slope (cal : CalibrationData) :
    (calculateCalibrationCurve cal calibrationStandards (0, 0, 0)).slope = 0 := by
  simp only [calculateCalibrationCurve, calibrationStandards]
  rw [log10_one, log10_ten, log10_hundred]
  norm_num

/-- C2 counterexample: the calibration run with raw voltages
(100, 100, -10) fits slope -55 (absolute value inside [50, 65]) and a
Pearson correlation of -330 / sqrt 145200 which is negative, yet the
run sets isValid = true: validation never consults the correlation. -/
theorem C2_counterexample :
    (performCalibration
        { isValid := false, slope := 0, intercept := 0, standards := (0, 0, 0),
          voltages := (0, 0, 0), calibrationDate := 0, correlationCoeff := 0 }
        { validCell := false, slopeCell := 0, interceptCell := 0, dateCell := 0 }
        (100, 100, -10) 3).1.isValid = true ∧
    (performCalibration
        { isValid := false, slope := 0, intercept := 0, standards := (0, 0, 0),
          voltages := (0, 0, 0), calibrationDate := 0, correlationCoeff := 0 }
        { validCell := false, slopeCell := 0, interceptCell := 0, dateCell := 0 }
        (100, 100, -10) 3).1.correlationCoeff < 0.995 := by
  have hslope : (calculateCalibrationCurve
      { isValid := false, slope := 0, intercept := 0, standards := (0, 0, 0),
        voltages := (0, 0, 0), calibrationDate := 0, correlationCoeff := 0 }
      calibrationStandards (100, 100, -10)).slope = -55 := by
    simp only [calculateCalibrationCurve, calibrationStandards]
    rw [log10_one, log10_ten, log10_hundred]
    norm_num
  have hcorr : (calculateCalibrationCurve
      { isValid := false, slope := 0, intercept := 0, standards := (0, 0, 0),
        voltages := (0, 0, 0), calibrationDate := 0, correlationCoeff := 0 }
      calibrationStandards (100, 100, -10)).correlationCoeff < 0.995 := by
    simp only [calculateCalibrationCurve, calibrationStandards]
    rw [log10_one, log10_ten, log10_hundred]
    rw [show ((3:ℝ) * (0 * 0 + 1 * 1 + 2 * 2) - (0 + 1 + 2) * (0 + 1 + 2)) *
          (3 * (100 * 100 + 100 * 100 + -10 * -10) - (100 + 100 + -10) * (100 + 100 + -10)) =
        145200 by norm_num]
    have hpos : 0 < Real.sqrt 145200 := Real.sqrt_pos.mpr (by norm_num)
    rw [if_pos (ne_of_gt hpos)]
    rw [show (3:ℝ) * (0 * 100 + 1 * 100 + 2 * -10) - (0 + 1 + 2) * (100 + 100 + -10) =
        -330 by norm_num]
    have hneg : (-330 : ℝ) / Real.sqrt 145200 < 0 :=
      div_neg_of_neg_of_pos (by norm_num) hpos
    linarith
  simp only [performCalibration]
  rw [if_pos (by
    rw [hslope]
    constructor
    · simp only [MIN_ACCEPTABLE_SLOPE]
      rw [abs_of_neg (by norm_num : (-55 : ℝ) < 0)]
      norm_num
    · simp only [MAX_ACCEPTABLE_SLOPE]
      rw [abs_of_neg (by norm_num : (-55 : ℝ) < 0)]
      norm_num)]
  exact ⟨rfl, hcorr⟩

/-- C2 amended: a calibration run marks the curve valid exactly when
the absolute fitted slope lies in [MIN_ACCEPTABLE_SLOPE,
MAX_ACCEPTABLE_SLOPE]; the Pearson correlation is computed and stored
but plays no part in the validity decision. -/
theorem C2_isValid_slope_only (cal : CalibrationData) (e : EepromState)
    (v : ℝ × ℝ × ℝ) (now : ℕ) :
    (performCalibration cal e v now).1.isValid = true ↔
      (MIN_ACCEPTABLE_SLOPE ≤ |(calculateCalibrationCurve cal calibrationStandards v).slope| ∧
        |(calculateCalibrationCurve cal calibrationStandards v).slope| ≤
          MAX_ACCEPTABLE_SLOPE) := by
  simp only [performCalibration]
  split_ifs with h
  · exact iff_of_true rfl h
  · exact iff_of_false (by simp) h

/-- C1 counterexample: starting from a stored valid curve with slope 59,
intercept 200 and correlation 0.999, a calibration run whose three raw
voltages are all 0 fails slope validation, yet afterwards the in-memory
curve holds the freshly fitted slope 0 instead of the previous 59 (and
isValid has been cleared): the previous curve is not retained. -/
theorem C1_counterexample :
    (performCalibration
        { isValid := true, slope := 59, intercept := 200, standards := (1, 10, 100),
          voltages := (200, 141, 82), calibrationDate := 5, correlationCoeff := 0.999 }
        { validCell := true, slopeCell := 59, interceptCell := 200, dateCell := 5 }
        (0, 0, 0) 9).1.slope = 0 ∧
    ({ isValid := true, slope := 59, intercept := 200, standards := (1, 10, 100),
        voltages := (200, 141, 82), calibrationDate := 5,
        correlationCoeff := 0.999 } : CalibrationData).slope = 59 ∧
    (performCalibration
        { isValid := true, slope := 59, intercept := 200, standards := (1, 10, 100),
          voltages := (200, 141, 82), calibrationDate := 5, correlationCoeff := 0.999 }
        { validCell := true, slopeCell := 59, interceptCell := 200, dateCell := 5 }
        (0, 0, 0) 9).1.slope <
      ({ isValid := true, slope := 59, intercept := 200, standards := (1, 10, 100),
          voltages := (200, 141, 82), calibrationDate := 5,
          correlationCoeff := 0.999 } : CalibrationData).slope ∧
    (performCalibration
        { isValid := true, slope := 59, intercept := 200, standards := (1, 10, 100),
          voltages := (200, 141, 82), calibrationDate := 5, correlationCoeff := 0.999 }
        { validCell := true, slopeCell := 59, interceptCell := 200, dateCell := 5 }
        (0, 0, 0) 9).1.isValid = false := by
  have hs := zeroVolt_slope
    { isValid := true, slope := 59, intercept := 200, standards := (1, 10, 100),
      voltages := (200, 141, 82), calibrationDate := 5, correlationCoeff := 0.999 }
  have hpair : performCalibration
      { isValid := true, slope := 59, intercept := 200, standards := (1, 10, 100),
        voltages := (200, 141, 82), calibrationDate := 5, correlationCoeff := 0.999 }
      { validCell := true, slopeCell := 59, interceptCell := 200, dateCell := 5 }
      (0, 0, 0) 9 =
      ({ calculateCalibrationCurve
          { isValid := true, slope := 59, intercept := 200, standards := (1, 10, 100),
            voltages := (200, 141, 82), calibrationDate := 5, correlationCoeff := 0.999 }
          calibrationStandards (0, 0, 0) with isValid := false },
        { validCell := true, slopeCell := 59, interceptCell := 200, dateCell := 5 }) := by
    simp only [performCalibration]
    rw [if_neg (by
      rw [hs]
      simp only [MIN_ACCEPTABLE_SLOPE, MAX_ACCEPTABLE_SLOPE, abs_zero]
      norm_num)]
  rw [hpair]
  exact ⟨hs, rfl, lt_of_le_of_lt (le_of_eq hs) (by norm_num), rfl⟩

/-- C1 amended: when the fitted slope fails validation the run reports
failure (isValid = false) and the durable EEPROM store is left exactly
as it was (no save occurs, so no half-written persistent curve), but
the in-memory slope, intercept and correlation have been overwritten by
the failed fit rather than restored to their pre-run values. -/
theorem C1_failed_calibration (cal : CalibrationData) (e : EepromState)
    (v : ℝ × ℝ × ℝ) (now : ℕ)
    (h : ¬(MIN_ACCEPTABLE_SLOPE ≤
            |(calculateCalibrationCurve cal calibrationStandards v).slope| ∧
          |(calculateCalibrationCurve cal calibrationStandards v).slope| ≤
            MAX_ACCEPTABLE_SLOPE)) :
    (performCalibration cal e v now).2 = e ∧
    (performCalibration cal e v now).1.isValid = false ∧
    (performCalibration cal e v now).1.slope =
      (calculateCalibrationCurve cal calibrationStandards v).slope ∧
    (performCalibration cal e v now).1.intercept =
      (calculateCalibrationCurve cal calibrationStandards v).intercept ∧
    (performCalibration cal e v now).1.correlationCoeff =
      (calculateCalibrationCurve cal calibrationStandards v).correlationCoeff := by
  simp only [performCalibration]
  rw [if_neg h]
  exact ⟨rfl, rfl, rfl, rfl, rfl⟩

/-- Witness for C1 at the all-zero voltage run over a stored valid
curve: the EEPROM is unchanged and failure is reported. -/
theorem C1_witness :
    (performCalibration
        { isValid := true, slope := 59, intercept := 200, standards := (1, 10, 100),
          voltages := (200, 141, 82), calibrationDate := 5, correlationCoeff := 0.999 }
        { validCell := true, slopeCell := 59, interceptCell := 200, dateCell := 5 }
        (0, 0, 0) 11).2 =
      { validCell := true, slopeCell := 59, interceptCell := 200, dateCell := 5 } ∧
    (performCalibration
        { isValid := true, slope := 59, intercept := 200, standards := (1, 10, 100),
          voltages := (200, 141, 82), calibrationDate := 5, correlationCoeff := 0.999 }
        { validCell := true, slopeCell := 59, interceptCell := 200, dateCell := 5 }
        (0, 0, 0) 11).1.isValid = false := by
  have h := C1_failed_calibration
    { isValid := true, slope := 59, intercept := 200, standards := (1, 10, 100),
      voltages := (200, 141, 82), calibrationDate := 5, correlationCoeff := 0.999 }
    { validCell := true, slopeCell := 59, interceptCell := 200, dateCell := 5 }
    (0, 0, 0) 11 (by
      rw [zeroVolt_slope]
      simp only [MIN_ACCEPTABLE_SLOPE, MAX_ACCEPTABLE_SLOPE, abs_zero]
      norm_num)
  exact ⟨h.1, h.2.1⟩

/-- Witness for C6 applying the exact-fit theorem at standards
(1, 10, 100), slope -59, intercept 200 and signals (200, 141, 82). -/
theorem C6_witness :
    (calculateCalibrationCurve
        { isValid := false, slope := 0, intercept := 0, standards := (0, 0, 0),
          voltages := (0, 0, 0), calibrationDate := 0, correlationCoeff := 0 }
        (1, 10, 100) (200, 141, 82)).slope = -59 ∧
    (calculateCalibrationCurve
        { isValid := false, slope := 0, intercept := 0, standards := (0, 0, 0),
          voltages := (0, 0, 0), calibrationDate := 0, correlationCoeff := 0 }
        (1, 10, 100) (200, 141, 82)).intercept = 200 ∧
    |(calculateCalibrationCurve
        { isValid := false, slope := 0, intercept := 0, standards := (0, 0, 0),
          voltages := (0, 0, 0), calibrationDate := 0, correlationCoeff := 0 }
        (1, 10, 100) (200, 141, 82)).correlationCoeff| = 1 := by
  have h := C6_loglinear_fit
    { isValid := false, slope := 0, intercept := 0, standards := (0, 0, 0),
      voltages := (0, 0, 0), calibrationDate := 0, correlationCoeff := 0 }
    1 10 100 (-59) 200 200 141 82 (by norm_num) (by norm_num) (by norm_num)
    (by norm_num) (by rw [log10_one]; ring) (by rw [log10_ten]; ring)
    (by rw [log10_hundred]; ring)
  exact ⟨h.1, h.2.1, h.2.2.1⟩

end Ammonia
namespace Nitrite

/-- The validation expression evaluates to true exactly when both
concentrations are within their physical ranges and the temperature is
strictly between -10 and 50. -/
lemma validateMeasurement_eq_true (data : MeasurementData) :
    validateMeasurement data = true ↔
      (0 ≤ data.nitrite_concentration ∧ data.nitrite_concentration ≤ 100 ∧
        0 ≤ data.nitrate_concentration ∧ data.nitrate_concentration ≤ 1000 ∧
        -10 < data.temperature ∧ data.temperature < 50) := by
  simp only [validateMeasurement]
  split_ifs with h
  · exact iff_of_true rfl h
  · exact iff_of_false (by simp) h

end Nitrite

/-- C7 counterexample: with a valid calibration (slope 59, intercept 0)
the ammonia sampling cycle at temperature 60 degrees C (outside the
documented -10..50 bounds) computes total ammonia 1 mg/L, which is in
range, and marks the measurement valid: the ammonia module applies no
temperature condition at all. -/
theorem C7_counterexample :
    (Ammonia.takeAmmoniaMeasurement
        { currentReading :=
            { totalAmmonia := 0, freeAmmonia := 0, ammonium := 0, pH := 0,
              temperature := 0, rawVoltage := 0, slope := 0, timestamp := 0,
              toxicityLevel := "", dataValid := false },
          calibration :=
            { isValid := true, slope := 59, intercept := 0,
              standards := (1, 10, 100), voltages := (0, 0, 0), calibrationDate := 0,
              correlationCoeff := 1 },
          ammoniaBuffer := fun _ => 0, bufferIndex := 0 }
        60 7 0 0).currentReading.dataValid = true ∧
    (Ammonia.takeAmmoniaMeasurement
        { currentReading :=
            { totalAmmonia := 0, freeAmmonia := 0, ammonium := 0, pH := 0,
              temperature := 0, rawVoltage := 0, slope := 0, timestamp := 0,
              toxicityLevel := "", dataValid := false },
          calibration :=
            { isValid := true, slope := 59, intercept := 0,
              standards := (1, 10, 100), voltages := (0, 0, 0), calibrationDate := 0,
              correlationCoeff := 1 },
          ammoniaBuffer := fun _ => 0, bufferIndex := 0 }
        60 7 0 0).currentReading.temperature = 60 ∧
    ¬((-10 : ℝ) < 60 ∧ (60 : ℝ) < 50) := by
  have htot : Ammonia.calculateAmmoniaConcentration
      { isValid := true, slope := 59, intercept := 0, standards := (1, 10, 100),
        voltages := (0, 0, 0), calibrationDate := 0, correlationCoeff := 1 } 0 60 = 1 := by
    simp [Ammonia.calculateAmmoniaConcentration, Real.rpow_zero]
  have hc : Ammonia.ammoniaInRange (Ammonia.calculateAmmoniaConcentration
      { isValid := true, slope := 59, intercept := 0, standards := (1, 10, 100),
        voltages := (0, 0, 0), calibrationDate := 0, correlationCoeff := 1 } 0 60) := by
    rw [htot]
    exact ⟨by norm_num [Ammonia.AMMONIA_MIN_RANGE], by norm_num [Ammonia.AMMONIA_MAX_RANGE]⟩
  refine ⟨?_, ?_, by norm_num⟩ <;>
  · simp only [Ammonia.takeAmmoniaMeasurement]
    rw [if_pos hc]

/-- C7 amended: the nitrite/nitrate module marks a measurement valid
exactly when both computed concentrations lie within their physical
ranges and the temperature lies strictly within (-10, 50); the ammonia
module marks a measurement valid exactly when the instantaneous total
ammonia lies within [0.01, 100] mg/L, with no temperature condition;
and a computed concentration of -5 mg/L (below the physical minimum)
forces invalidity in both modules. -/
theorem C7_validation :
    (∀ (config : Nitrite.SensorConfig) (calib : Nitrite.CalibrationData)
        (errs : ℕ) (v1 v2 T : ℝ) (now : ℕ),
      (Nitrite.performMeasurement config calib errs v1 v2 T now).1.valid = true ↔
        (0 ≤ (Nitrite.performMeasurement config calib errs v1 v2 T now).1.nitrite_concentration ∧
          (Nitrite.performMeasurement config calib errs v1 v2 T now).1.nitrite_concentration ≤ 100 ∧
          0 ≤ (Nitrite.performMeasurement config calib errs v1 v2 T now).1.nitrate_concentration ∧
          (Nitrite.performMeasurement config calib errs v1 v2 T now).1.nitrate_concentration ≤ 1000 ∧
          -10 < (Nitrite.performMeasurement config calib errs v1 v2 T now).1.temperature ∧
          (Nitrite.performMeasurement config calib errs v1 v2 T now).1.temperature < 50)) ∧
    (∀ data : Nitrite.MeasurementData,
      Nitrite.validateMeasurement { data with nitrite_concentration := -5 } = false) ∧
    (∀ (st : Ammonia.SensorState) (T pH v : ℝ) (now : ℕ),
      (Ammonia.takeAmmoniaMeasurement st T pH v now).currentReading.dataValid = true ↔
        Ammonia.ammoniaInRange (Ammonia.calculateAmmoniaConcentration st.calibration v T)) ∧
    (Ammonia.ammoniaInRange (-5) ↔ False) := by
  refine ⟨?_, ?_, ?_, ?_⟩
  · intro config calib errs v1 v2 T now
    simp only [Nitrite.performMeasurement]
    split_ifs with h
    · exact iff_of_true (by simpa using h) ((Nitrite.validateMeasurement_eq_true _).mp (by simpa using h))
    · exact iff_of_false (by simpa using h)
        (fun hc => h (by simpa using (Nitrite.validateMeasurement_eq_true _).mpr hc))
  · intro data
    simp only [Nitrite.validateMeasurement]
    rw [if_neg]
    rintro ⟨h1, -⟩
    norm_num at h1
  · intro st T pH v now
    simp only [Ammonia.takeAmmoniaMeasurement]
    split_ifs with h
    · exact iff_of_true rfl h
    · exact iff_of_false (by simp) h
  · rw [iff_false]
    rintro ⟨h1, -⟩
    norm_num [Ammonia.AMMONIA_MIN_RANGE] at h1

/-- C8 counterexample: without a valid calibration the ammonia
concentration computation returns the constant 0.0 for every raw
signal (here at signals 100 and 200), a value below the physical
minimum of the sensor, not a default linear model. -/
theorem C8_counterexample :
    Ammonia.calculateAmmoniaConcentration
        { isValid := false, slope := 59, intercept := 200, standards := (1, 10, 100),
          voltages := (0, 0, 0), calibrationDate := 0, correlationCoeff := 1 } 100 25 = 0 ∧
    Ammonia.calculateAmmoniaConcentration
        { isValid := false, slope := 59, intercept := 200, standards := (1, 10, 100),
          voltages := (0, 0, 0), calibrationDate := 0, correlationCoeff := 1 } 200 25 = 0 ∧
    (0 : ℝ) < Ammonia.AMMONIA_MIN_RANGE := by
  refine ⟨?_, ?_, by norm_num [Ammonia.AMMONIA_MIN_RANGE]⟩ <;>
    norm_num [Ammonia.calculateAmmoniaConcentration]

/-- C8 amended: with no valid calibration the nitrite/nitrate module
falls back to the default linear model given by the configured
intercept and slope, and its quality score is at most 70 (the -30
uncalibrated penalty from 100, before further penalties and the floor
at 0); the ammonia module instead returns the constant 0.0, which is
below the physical minimum, so its measurement is flagged invalid
rather than uncalibrated. -/
theorem C8_uncalibrated_fallback :
    (∀ (cal : Ammonia.CalibrationData) (v T : ℝ),
      Ammonia.calculateAmmoniaConcentration { cal with isValid := false } v T = 0) ∧
    (∀ (config : Nitrite.SensorConfig) (calib : Nitrite.CalibrationData)
        (data : Nitrite.MeasurementData),
      Nitrite.calculateConcentrations config { calib with calibrated := false } data =
        { data with
          nitrite_concentration :=
            (10 : ℝ) ^ ((data.nitrite_voltage - config.nitrite_intercept) / config.nitrite_slope)
          nitrate_concentration :=
            (10 : ℝ) ^ ((data.nitrate_voltage - config.nitrate_intercept) / config.nitrate_slope) }) ∧
    (∀ (calib : Nitrite.CalibrationData) (data : Nitrite.MeasurementData) (now : ℕ),
      Nitrite.calculateQualityScore { calib with calibrated := false } data now ≤ 70) ∧
    (∀ (st : Ammonia.SensorState) (cal : Ammonia.CalibrationData) (T pH v : ℝ) (now : ℕ),
      (Ammonia.takeAmmoniaMeasurement { st with calibration := { cal with isValid := false } }
          T pH v now).currentReading.dataValid = false) := by
  refine ⟨?_, ?_, ?_, ?_⟩
  · intro cal v T
    norm_num [Ammonia.calculateAmmoniaConcentration]
  · intro config calib data
    rfl
  · intro calib data now
    simp only [Nitrite.calculateQualityScore]
    norm_num
    split_ifs <;> omega
  · intro st cal T pH v now
    have h0 : Ammonia.calculateAmmoniaConcentration { cal with isValid := false } v T = 0 := by
      norm_num [Ammonia.calculateAmmoniaConcentration]
    simp only [Ammonia.takeAmmoniaMeasurement]
    rw [h0, if_neg (by
      rintro ⟨h1, -⟩
      norm_num [Ammonia.AMMONIA_MIN_RANGE] at h1)]

namespace Ammonia

/-- C10: in every ammonia sampling cycle accepted as in-range, the
freeAmmonia and ammonium fields are computed from the instantaneous
total of that cycle (so their sum equals it exactly), while the
published totalAmmonia field is the average over the 10-slot rolling
buffer after inserting the instantaneous total; the sum equals the
published field exactly when the buffer average coincides with the
instantaneous reading. -/
theorem C10_equilibrium_split (st : SensorState) (T pH v : ℝ) (now : ℕ)
    (h : (takeAmmoniaMeasurement st T pH v now).currentReading.dataValid = true) :
    (takeAmmoniaMeasurement st T pH v now).currentReading.freeAmmonia +
        (takeAmmoniaMeasurement st T pH v now).currentReading.ammonium =
      calculateAmmoniaConcentration st.calibration v T ∧
    (takeAmmoniaMeasurement st T pH v now).currentReading.totalAmmonia =
      (Finset.univ.sum (Function.update st.ammoniaBuffer st.bufferIndex
          (calculateAmmoniaConcentration st.calibration v T))) / (MAX_READINGS_BUFFER : ℝ) ∧
    ((takeAmmoniaMeasurement st T pH v now).currentReading.freeAmmonia +
          (takeAmmoniaMeasurement st T pH v now).currentReading.ammonium =
        (takeAmmoniaMeasurement st T pH v now).currentReading.totalAmmonia ↔
      (Finset.univ.sum (Function.update st.ammoniaBuffer st.bufferIndex
          (calculateAmmoniaConcentration st.calibration v T))) / (MAX_READINGS_BUFFER : ℝ) =
        calculateAmmoniaConcentration st.calibration v T) := by
  by_cases hc : ammoniaInRange (calculateAmmoniaConcentration st.calibration v T)
  · simp only [takeAmmoniaMeasurement]
    rw [if_pos hc]
    refine ⟨by ring, rfl, ?_⟩
    rw [show calculateAmmoniaConcentration st.calibration v T *
          calculateFreeAmmoniaFraction pH T +
        calculateAmmoniaConcentration st.calibration v T *
          (1.0 - calculateFreeAmmoniaFraction pH T) =
        calculateAmmoniaConcentration st.calibration v T by ring]
    exact eq_comm
  · exfalso
    revert h
    simp only [takeAmmoniaMeasurement]
    rw [if_neg hc]
    simp

/-- Witness for C10 at a concrete in-range cycle: valid calibration
with slope 59 and intercept 0, zeroed buffer, raw signal 0 at 25
degrees C (instantaneous total 1 mg/L). -/
theorem C10_witness :
    (Ammonia.takeAmmoniaMeasurement
        { currentReading :=
            { totalAmmonia := 0, freeAmmonia := 0, ammonium := 0, pH := 0,
              temperature := 0, rawVoltage := 0, slope := 0, timestamp := 0,
              toxicityLevel := "", dataValid := false },
          calibration :=
            { isValid := true, slope := 59, intercept := 0,
              standards := (1, 10, 100), voltages := (0, 0, 0), calibrationDate := 0,
              correlationCoeff := 1 },
          ammoniaBuffer := fun _ => 0, bufferIndex := 0 }
        25 7 0 3).currentReading.freeAmmonia +
      (Ammonia.takeAmmoniaMeasurement
        { currentReading :=
            { totalAmmonia := 0, freeAmmonia := 0, ammonium := 0, pH := 0,
              temperature := 0, rawVoltage := 0, slope := 0, timestamp := 0,
              toxicityLevel := "", dataValid := false },
          calibration :=
            { isValid := true, slope := 59, intercept := 0,
              standards := (1, 10, 100), voltages := (0, 0, 0), calibrationDate := 0,
              correlationCoeff := 1 },
          ammoniaBuffer := fun _ => 0, bufferIndex := 0 }
        25 7 0 3).currentReading.ammonium =
      Ammonia.calculateAmmoniaConcentration
        ({ currentReading :=
             { totalAmmonia := 0, freeAmmonia := 0, ammonium := 0, pH := 0,
               temperature := 0, rawVoltage := 0, slope := 0, timestamp := 0,
               toxicityLevel := "", dataValid := false },
           calibration :=
             { isValid := true, slope := 59, intercept := 0,
               standards := (1, 10, 100), voltages := (0, 0, 0), calibrationDate := 0,
               correlationCoeff := 1 },
           ammoniaBuffer := fun _ => 0, bufferIndex := 0 } : SensorState).calibration 0 25 := by
  have htot : Ammonia.calculateAmmoniaConcentration
      { isValid := true, slope := 59, intercept := 0, standards := (1, 10, 100),
        voltages := (0, 0, 0), calibrationDate := 0, correlationCoeff := 1 } 0 25 = 1 := by
    simp [Ammonia.calculateAmmoniaConcentration, Real.rpow_zero]
  have hc : Ammonia.ammoniaInRange (Ammonia.calculateAmmoniaConcentration
      { isValid := true, slope := 59, intercept := 0, standards := (1, 10, 100),
        voltages := (0, 0, 0), calibrationDate := 0, correlationCoeff := 1 } 0 25) := by
    rw [htot]
    exact ⟨by norm_num [Ammonia.AMMONIA_MIN_RANGE], by norm_num [Ammonia.AMMONIA_MAX_RANGE]⟩
  have hvalid : (Ammonia.takeAmmoniaMeasurement
      { currentReading :=
          { totalAmmonia := 0, freeAmmonia := 0, ammonium := 0, pH := 0,
            temperature := 0, rawVoltage := 0, slope := 0, timestamp := 0,
            toxicityLevel := "", dataValid := false },
        calibration :=
          { isValid := true, slope := 59, intercept := 0,
            standards := (1, 10, 100), voltages := (0, 0, 0), calibrationDate := 0,
            correlationCoeff := 1 },
        ammoniaBuffer := fun _ => 0, bufferIndex := 0 }
      25 7 0 3).currentReading.dataValid = true := by
    simp only [Ammonia.takeAmmoniaMeasurement]
    rw [if_pos hc]
  exact (C10_equilibrium_split _ 25 7 0 3 hvalid).1

end Ammonia
